import Mathlib

/-
Verification of the resume-ci repository: a shallow embedding of the
Python sources src/main.py (fetch + Resume builder) and src/app.py
(Flask endpoints + GCS upload), together with theorems settling the
frozen behavioural claims about them.

JSON values are modelled by an inductive type; Python dicts become
association lists; code that can raise returns Except PyErr; external
effects (HTTP responses of the remote data source, the LaTeX toolchain,
the GCS backend) are passed in explicitly as data.
-/

namespace ResumeCI

/-- JSON-like values as produced by the json parsing layer used in the code. -/
inductive JValue where
  | str (s : String)
  | num (n : Int)
  | bool (b : Bool)
  | null
  | arr (xs : List JValue)
  | obj (fields : List (String × JValue))

/-- Python truthiness of a JSON value: empty strings, zero, False, None and
empty containers are falsy, everything else truthy. -/
def truthy : JValue → Bool
  | .str s => !s.isEmpty
  | .num n => n != 0
  | .bool b => b
  | .null => false
  | .arr xs => !xs.isEmpty
  | .obj fs => !fs.isEmpty

/-- Dictionary lookup (first matching key, as in a Python dict). -/
def dictLookup (d : List (String × JValue)) (k : String) : Option JValue :=
  (d.find? (fun p => p.fst == k)).map Prod.snd

/-- Python dict.get with a default value. -/
def dictGet (d : List (String × JValue)) (k : String) (default : JValue) : JValue :=
  (dictLookup d k).getD default

/-- Python key-membership test on a dict. -/
def dictContains (d : List (String × JValue)) (k : String) : Bool :=
  (dictLookup d k).isSome

/-- Python dict.pop: the dictionary with the key removed. -/
def dictRemove (d : List (String × JValue)) (k : String) : List (String × JValue) :=
  d.filter (fun p => p.fst != k)

/-- Lookup in a string-valued association list. -/
def strLookup (fs : List (String × String)) (k : String) : Option String :=
  (fs.find? (fun p => p.fst == k)).map Prod.snd

/-- A string-valued mapping viewed as JSON object fields. -/
def strFields (fs : List (String × String)) : List (String × JValue) :=
  fs.map (fun p => (p.fst, JValue.str p.snd))

/-- A string-valued mapping viewed as a JSON object. -/
def strObj (fs : List (String × String)) : JValue :=
  JValue.obj (strFields fs)

/-- A single-quote character as a string, used by the Python repr model. -/
def quoteS : String := (Char.ofNat 39).toString

mutual
/-- Model of Python repr for JSON values (strings quoted, containers bracketed). -/
def pyRepr : JValue → String
  | .str s => quoteS ++ s ++ quoteS
  | .num n => toString n
  | .bool b => if b then "True" else "False"
  | .null => "None"
  | .arr xs => "[" ++ pyReprSeq xs ++ "]"
  | .obj fs => "\x7b" ++ pyReprFields fs ++ "\x7d"

/-- Comma-separated reprs of a sequence of values. -/
def pyReprSeq : List JValue → String
  | [] => ""
  | [v] => pyRepr v
  | v :: vs => pyRepr v ++ ", " ++ pyReprSeq vs

/-- Comma-separated reprs of the fields of an object. -/
def pyReprFields : List (String × JValue) → String
  | [] => ""
  | [(k, v)] => quoteS ++ k ++ quoteS ++ ": " ++ pyRepr v
  | (k, v) :: fs => quoteS ++ k ++ quoteS ++ ": " ++ pyRepr v ++ ", " ++ pyReprFields fs
end

/-- Model of Python str as used by f-string interpolation: identity on strings,
repr-like rendering otherwise. -/
def pyStr : JValue → String
  | .str s => s
  | v => pyRepr v

/-- Python exceptions that the embedded code can raise. -/
inductive PyErr where
  | keyError (k : String)
  | typeError (msg : String)
  | attributeError (msg : String)
  | other (msg : String)

/-- Model of str(e) for the modelled exceptions (KeyError shows the quoted key). -/
def pyErrMsg : PyErr → String
  | .keyError k => quoteS ++ k ++ quoteS
  | .typeError msg => msg
  | .attributeError msg => msg
  | .other msg => msg

/-- Python subscript value[key] for a string key: KeyError on a missing
object key, TypeError on non-objects. -/
def pySubscript (v : JValue) (k : String) : Except PyErr JValue :=
  match v with
  | .obj fs =>
    match dictLookup fs k with
    | some x => .ok x
    | none => .error (.keyError k)
  | _ => .error (.typeError "value is not subscriptable")

/-- Python membership test key in value: key lookup on objects, element test
on arrays, substring test on strings, TypeError otherwise. -/
def pyIn (k : String) (v : JValue) : Except PyErr Bool :=
  match v with
  | .obj fs => .ok (dictContains fs k)
  | .arr xs => .ok (xs.any (fun x => match x with | .str s => s == k | _ => false))
  | .str s => .ok (k.isEmpty || decide (1 < (s.splitOn k).length))
  | _ => .error (.typeError "argument is not iterable")

/-- Python value.get(key, default): only objects have the get method. -/
def pyGet (v : JValue) (k : String) (default : JValue) : Except PyErr JValue :=
  match v with
  | .obj fs => .ok (dictGet fs k default)
  | _ => .error (.attributeError "value has no attribute get")

/-- Python iteration over a value: arrays yield elements, strings yield
characters, objects yield their keys, other values are not iterable. -/
def pyIter (v : JValue) : Except PyErr (List JValue) :=
  match v with
  | .arr xs => .ok xs
  | .str s => .ok (s.toList.map (fun c => JValue.str c.toString))
  | .obj fs => .ok (fs.map (fun p => JValue.str p.fst))
  | _ => .error (.typeError "value is not iterable")

/-- Python sep.join(items): concatenation with separator, TypeError on a
non-string item. -/
def strJoin (sep : String) : List JValue → Except PyErr String
  | [] => .ok ""
  | [.str s] => .ok s
  | [_] => .error (.typeError "sequence item: expected str instance")
  | .str s :: rest => (strJoin sep rest).map (fun r => s ++ sep ++ r)
  | _ :: _ => .error (.typeError "sequence item: expected str instance")

/-- Separator-joined concatenation of plain strings (total counterpart of strJoin). -/
def joinStrs (sep : String) : List String → String
  | [] => ""
  | [s] => s
  | s :: rest => s ++ sep ++ joinStrs sep rest

/-! ## The remote data Fetcher (src/main.py, fetch) -/

/-- An HTTP response as seen by the fetch code: its status code and the
result of attempting to parse its body as JSON (none when unparsable). -/
structure Response where
  status : Nat
  parsed : Option JValue

/-- The exceptions of the requests library that the fetch code handles. -/
inductive RequestsExc where
  | timeout
  | connectionError
  | httpError (status : Nat)
  | jsonDecodeError
  | unexpected (msg : String)

/-- Outcome of the requests.get call itself: either a response arrived or the
call raised (timeout, connection error, or any other exception). -/
inductive GetResult where
  | resp (r : Response)
  | raised (e : RequestsExc)

/-- The URL of the combined data endpoint hardcoded in Resume init. -/
def combinedEndpointUrl : String := "https://saiyerniakhil.in/api/data.json"

/-- Model of requests Response.raise_for_status: raises HTTPError exactly for
status codes 400 to 599, and does nothing for all other codes. -/
def raiseForStatus (r : Response) : Except RequestsExc Unit :=
  if 400 ≤ r.status ∧ r.status < 600 then .error (.httpError r.status) else .ok ()

/-- Model of Response.json: the parsed body, JSONDecodeError when unparsable. -/
def responseJson (r : Response) : Except RequestsExc JValue :=
  match r.parsed with
  | some v => .ok v
  | none => .error .jsonDecodeError

/-- The try block of fetch: requests.get, raise_for_status, response.json. -/
def fetchTry (g : GetResult) : Except RequestsExc JValue :=
  match g with
  | .raised e => .error e
  | .resp r => do
    raiseForStatus r
    responseJson r

/-- fetch(url) from src/main.py: the try block with every handled exception
(Timeout, ConnectionError, HTTPError, JSONDecodeError and the catch-all
Exception) converted to an empty mapping result. -/
def fetch (g : GetResult) : JValue :=
  match fetchTry g with
  | .ok v => v
  | .error .timeout => .obj []
  | .error .connectionError => .obj []
  | .error (.httpError _) => .obj []
  | .error .jsonDecodeError => .obj []
  | .error (.unexpected _) => .obj []

/-! ## The Resume builder (src/main.py, class Resume) -/

/-- The four lines of the header name block (createHeader, name part). -/
def headerNameLines : List String :=
  ["\\begin\x7bcenter\x7d",
   "\\textbf\x7b\\Huge Sai Yerni Akhil Madabattula\x7d",
   "\\end\x7bcenter\x7d",
   "\\vspace\x7b2mm\x7d"]

/-- One conditional link append of createHeader: if the key is in the social
mapping, append the rendered f-string built from str of its value. -/
def appendLink (social : JValue) (links : List JValue) (key : String)
    (render : String → String) : Except PyErr (List JValue) := do
  if (← pyIn key social) then
    let v ← pySubscript social key
    pure (links ++ [JValue.str (render (pyStr v))])
  else
    pure links

/-- The links list built by createHeader: linkedin, github, website, email
rendered as href entries, phone appended as the raw value. -/
def createHeaderLinks (social : JValue) : Except PyErr (List JValue) := do
  let links ← appendLink social [] "linkedin"
    (fun url => "\\href\x7b" ++ url ++ "\x7d\x7bLinkedIn\x7d")
  let links ← appendLink social links "github"
    (fun url => "\\href\x7b" ++ url ++ "\x7d\x7bGitHub\x7d")
  let links ← appendLink social links "website"
    (fun url => "\\href\x7b" ++ url ++ "\x7d\x7bsaiyerniakhil.in\x7d")
  let links ← appendLink social links "email"
    (fun em => "\\href\x7bmailto://" ++ em ++ "\x7d\x7b" ++ em ++ "\x7d")
  if (← pyIn "phone" social) then
    let v ← pySubscript social "phone"
    pure (links ++ [v])
  else
    pure links

/-- createHeader: the name block, then, if any links were collected, a
centered row of the links joined by the vertical-bar separator. -/
def createHeader (data : List (String × JValue)) : Except PyErr (List String) := do
  let social := dictGet data "socialLinks" (JValue.obj [])
  let links ← createHeaderLinks social
  if links.isEmpty then
    pure headerNameLines
  else do
    let joined ← strJoin "\n\\text\x7b\\textbar\x7d\n" links
    pure (headerNameLines ++
      ["\\begin\x7bcenter\x7d", joined, "\\end\x7bcenter\x7d"])

/-- The section heading lines of createWorkExSection. -/
def workExHeaderLines : List String :=
  ["\\section*\x7bWork Experience\x7d",
   "\x7b\\color\x7bMainBlue\x7d\\hrule height 0.5mm\x7d",
   "\\vspace\x7b3mm\x7d"]

/-- The lines emitted for one job of the work experience loop. -/
def renderJob (job : JValue) : Except PyErr (List String) := do
  let role ← pyGet job "role" (JValue.str "")
  let period ← pyGet job "period" (JValue.str "")
  let company ← pyGet job "company" (JValue.str "")
  let location ← pyGet job "location" (JValue.str "")
  let descriptions ← pyGet job "description" (JValue.arr [])
  let descLines ←
    if truthy descriptions then do
      let ds ← pyIter descriptions
      pure (["\\begin\x7bitemize\x7d[leftmargin=*]",
             "\\setlength\x7b\\itemsep\x7d\x7b0.02em\x7d"]
            ++ ds.map (fun d => "\\item " ++ pyStr d)
            ++ ["\\end\x7bitemize\x7d"])
    else
      pure []
  pure (["\\noindent",
         "\\textbf\x7b" ++ pyStr role ++ "\x7d \\hfill " ++ pyStr period ++ " \\\\",
         "\\text\x7b" ++ pyStr company ++ "\x7d \\hfill " ++ pyStr location]
        ++ descLines)

/-- The work experience loop: a 2mm gap between consecutive jobs but not
after the last one. -/
def renderJobs : List JValue → Except PyErr (List String)
  | [] => .ok []
  | [job] => renderJob job
  | job :: rest => do
    let l ← renderJob job
    let ls ← renderJobs rest
    pure (l ++ ["\\vspace\x7b2mm\x7d"] ++ ls)

/-- createWorkExSection: heading, then workEx normalized to a sequence (a bare
mapping becomes a one-element sequence) and rendered job by job. -/
def createWorkExSection (data : List (String × JValue)) : Except PyErr (List String) := do
  let workEx := dictGet data "workEx" (JValue.arr [])
  let workExL := match workEx with
    | .obj fs => JValue.arr [.obj fs]
    | x => x
  let jobs ← pyIter workExL
  let body ← renderJobs jobs
  pure (workExHeaderLines ++ body)

/-- The section heading lines of createSkills. -/
def skillsHeaderLines : List String :=
  ["\\section*\x7bSkills\x7d",
   "\x7b\\color\x7bMainBlue\x7d\\hrule height 0.5mm\x7d",
   "\\vspace\x7b3mm\x7d"]

/-- One iteration of the skills loop: a bullet only when both the type and
the values of the group are truthy, nothing otherwise. -/
def renderSkill (skill : JValue) : Except PyErr (List String) := do
  let skillType ← pyGet skill "type" (JValue.str "")
  let values ← pyGet skill "values" (JValue.arr [])
  if truthy skillType && truthy values then do
    let vs ← pyIter values
    let valuesStr ← strJoin ", " vs
    pure ["\\item \\textbf\x7b" ++ pyStr skillType ++ ":\x7d " ++ valuesStr]
  else
    pure []

/-- The skills loop over all groups. -/
def renderSkills : List JValue → Except PyErr (List String)
  | [] => .ok []
  | s :: rest => do
    let l ← renderSkill s
    let ls ← renderSkills rest
    pure (l ++ ls)

/-- createSkills: heading always, then the bullet list wrapper and the loop
only when the top-level skills value is truthy. -/
def createSkills (data : List (String × JValue)) : Except PyErr (List String) := do
  let skills := dictGet data "skills" (JValue.arr [])
  if truthy skills then do
    let items ← pyIter skills
    let body ← renderSkills items
    pure (skillsHeaderLines ++
      ["\\begin\x7bitemize\x7d[leftmargin=*]",
       "\\setlength\x7b\\itemsep\x7d\x7b0.02em\x7d"]
      ++ body ++ ["\\end\x7bitemize\x7d"])
  else
    pure skillsHeaderLines

/-- The fixed lines of createEducation, transcribed literally from the source. -/
def educationLines : List String :=
  ["\\section*\x7bEducation\x7d",
   "\x7b\\color\x7bMainBlue\x7d\\hrule height 0.5mm\x7d",
   "\\vspace\x7b3mm\x7d",
   "\\noindent",
   "\\textbf\x7bUniversity of Wisconsin,\x7d United States \\hfill Jan 2023 - Aug 2024\\\\",
   "M.S. Computer Science \\hfill GPA: 3.8\\\\",
   "Relevant Courses: Machine Learning, Network Security, Programming Language Concepts, Concurrent Programming, Natural Language Processing, Web Development",
   "\\vspace\x7b3mm\x7d",
   "\\noindent",
   "\\textbf\x7bSathyabama Institute of Science and Technology,\x7d Chennai, India \\hfill July 2016 - May 2020 \\\\",
   "B.E. Computer Science and Engineering \\hfill GPA: 8.45\\\\",
   "Courses: Data Structures, Advanced Data Structures, Machine Learning, DBMS, Operating Systems, Responsive Web Design"]

/-- createEducation appends fixed literal lines; it reads nothing from the
data of the Resume object it is called on. -/
def createEducation (_data : List (String × JValue)) : List String :=
  educationLines

/-- The Resume object: the accumulated document body and the working data
(the constant Document preamble and package setup is not tracked). -/
structure Resume where
  docBody : List String
  data : List (String × JValue)

/-- The destructuring branch of Resume init: itemgetter over the four keys
personalInfo, socialLinks, workExperience, skills of the fetched value
(KeyError on the first missing key), then falsy values replaced by empty
defaults and workExperience relabeled workEx. -/
def fromFetch (fetched : JValue) : Except PyErr (List (String × JValue)) := do
  let personalInfo ← pySubscript fetched "personalInfo"
  let socialLinks ← pySubscript fetched "socialLinks"
  let workExperience ← pySubscript fetched "workExperience"
  let skills ← pySubscript fetched "skills"
  pure [("workEx", if truthy workExperience then workExperience else JValue.arr []),
        ("socialLinks", if truthy socialLinks then socialLinks else JValue.obj []),
        ("personalInfo", if truthy personalInfo then personalInfo else JValue.obj []),
        ("skills", if truthy skills then skills else JValue.obj [])]

/-- Resume init: a truthy data argument is used verbatim; a missing or falsy
one makes the constructor fetch the combined endpoint and destructure the
result. The document body starts empty. -/
def resumeInit (dataArg : Option (List (String × JValue))) (fetched : JValue) :
    Except PyErr Resume :=
  match dataArg with
  | some d =>
    if d.isEmpty then (fromFetch fetched).map (Resume.mk [])
    else .ok (Resume.mk [] d)
  | none => (fromFetch fetched).map (Resume.mk [])

/-- Resume.create: header always, work experience section when workEx is
present and truthy, skills section when skills is present and truthy,
education always; then the PDF build (whose external failure, when given,
propagates) and the returned produced filename. -/
def Resume.create (r : Resume) (outputFilename : String) (latexFailure : Option String) :
    Except PyErr (Resume × String) := do
  let headerLines ← createHeader r.data
  let workLines ←
    if dictContains r.data "workEx" && truthy (dictGet r.data "workEx" JValue.null) then
      createWorkExSection r.data
    else
      pure []
  let skillLines ←
    if dictContains r.data "skills" && truthy (dictGet r.data "skills" JValue.null) then
      createSkills r.data
    else
      pure []
  let newBody := r.docBody ++ headerLines ++ workLines ++ skillLines ++ createEducation r.data
  match latexFailure with
  | some msg => .error (.other msg)
  | none => .ok (Resume.mk newBody r.data, outputFilename ++ ".pdf")

/-! ## The HTTP service (src/app.py) -/

/-- The external state an app request runs against: the outcome of the
combined-endpoint fetch, a possible LaTeX toolchain failure, the
GCS_BUCKET_NAME environment variable, whether the storage client
initialization at startup succeeded, a possible GCS backend failure, and
the timestamp used for synthesized blob names. -/
structure ExternalWorld where
  combinedFetch : GetResult
  latexFailure : Option String
  gcsBucketName : Option String
  gcsClientInitOk : Bool
  gcsUploadFailure : Option String
  timestamp : String

/-- Truthiness of the GCS_BUCKET_NAME environment variable (unset or empty
is falsy). -/
def bucketTruthy (w : ExternalWorld) : Bool :=
  match w.gcsBucketName with
  | some s => !s.isEmpty
  | none => false

/-- Whether the module-level storage client is set: it is initialized at
startup only when the bucket name is truthy and initialization succeeds. -/
def storageClient (w : ExternalWorld) : Bool :=
  bucketTruthy w && w.gcsClientInitOk

/-- upload_to_gcs from src/app.py: returns none (upload skipped) when the
bucket or the client is unavailable; otherwise resolves the blob name
(synthesizing a timestamped one for a missing or falsy destination name),
re-raises a backend failure, and on success returns the gs locator. -/
def upload_to_gcs (w : ExternalWorld) (_filePath : String)
    (destinationBlobName : Option String) : Except PyErr (Option String) :=
  if !(bucketTruthy w) || !(storageClient w) then
    .ok none
  else
    let blobName :=
      match destinationBlobName with
      | none => "resumes/resume_" ++ w.timestamp ++ ".pdf"
      | some n => if n.isEmpty then "resumes/resume_" ++ w.timestamp ++ ".pdf" else n
    match w.gcsUploadFailure with
    | some msg => .error (.other msg)
    | none => .ok (some ("gs://" ++ w.gcsBucketName.getD "" ++ "/" ++ blobName))

/-- A response body: a JSON object or a PDF file attachment. -/
inductive RespBody where
  | jsonBody (fields : List (String × JValue))
  | pdfAttachment (downloadName : String)

/-- An HTTP response: status code and body. -/
structure HttpResp where
  status : Nat
  body : RespBody

/-- The part of the generate-resume POST handler after validation: pop the
uploadToGcs flag, construct the Resume from the remaining data, build the
PDF, and either upload to GCS (200 on a locator, 500 on the skipped
outcome) or send the file. -/
def generateResumeBuild (w : ExternalWorld) (data : List (String × JValue)) :
    Except PyErr HttpResp := do
  let uploadFlag := dictGet data "uploadToGcs" (JValue.bool false)
  let data1 := dictRemove data "uploadToGcs"
  let r ← resumeInit (some data1) (fetch w.combinedFetch)
  let (_r1, pdfFilename) ← r.create "resume" w.latexFailure
  if truthy uploadFlag then
    match ← upload_to_gcs w pdfFilename none with
    | some url =>
      pure ⟨200, .jsonBody [("success", JValue.bool true),
                            ("message", JValue.str "Resume generated and uploaded to GCS"),
                            ("gcs_url", JValue.str url)]⟩
    | none =>
      pure ⟨500, .jsonBody [("success", JValue.bool false),
                            ("message", JValue.str "Resume generated but GCS upload failed (bucket not configured)")]⟩
  else
    pure ⟨200, .pdfAttachment "resume.pdf"⟩

/-- The try block of the generate-resume POST handler: the parsed request
body (none when no JSON data could be obtained) is validated, then built.
A falsy (empty) body and an absent one both take the first 400 branch. -/
def generateResumeInner (w : ExternalWorld) (body : Option (List (String × JValue))) :
    Except PyErr HttpResp :=
  match body with
  | none => .ok ⟨400, .jsonBody [("error", JValue.str "No JSON data provided")]⟩
  | some data =>
    if data.isEmpty then
      .ok ⟨400, .jsonBody [("error", JValue.str "No JSON data provided")]⟩
    else if !(dictContains data "workEx") && !(dictContains data "socialLinks") then
      .ok ⟨400, .jsonBody [("error", JValue.str "Either workEx or socialLinks must be provided")]⟩
    else
      generateResumeBuild w data

/-- POST generate-resume: the handler with its outermost exception boundary
converting any raised exception into a 500 JSON error envelope. -/
def generate_resume (w : ExternalWorld) (body : Option (List (String × JValue))) : HttpResp :=
  match generateResumeInner w body with
  | .ok resp => resp
  | .error e => ⟨500, .jsonBody [("error", JValue.str (pyErrMsg e))]⟩

/-- The try block of the generate-resume-from-api GET handler: parse the
upload_to_gcs query parameter, construct a Resume with no data (which
fetches the combined endpoint), build the PDF, and upload (with the fixed
destination name) or send the file. -/
def generateResumeFromApiInner (w : ExternalWorld) (uploadParam : Option String) :
    Except PyErr HttpResp := do
  let uploadFlag := (uploadParam.getD "false").toLower == "true"
  let r ← resumeInit none (fetch w.combinedFetch)
  let (_r1, pdfFilename) ← r.create "resume" w.latexFailure
  if uploadFlag then
    match ← upload_to_gcs w pdfFilename (some "resume.pdf") with
    | some url =>
      pure ⟨200, .jsonBody [("success", JValue.bool true),
                            ("message", JValue.str "Resume generated and uploaded to GCS"),
                            ("gcs_url", JValue.str url)]⟩
    | none =>
      pure ⟨500, .jsonBody [("success", JValue.bool false),
                            ("message", JValue.str "Resume generated but GCS upload failed (bucket not configured)")]⟩
  else
    pure ⟨200, .pdfAttachment "resume.pdf"⟩

/-- GET generate-resume-from-api with its outermost exception boundary. -/
def generate_resume_from_api (w : ExternalWorld) (uploadParam : Option String) : HttpResp :=
  match generateResumeFromApiInner w uploadParam with
  | .ok resp => resp
  | .error e => ⟨500, .jsonBody [("error", JValue.str (pyErrMsg e))]⟩

/-! ## Spec-side descriptions used to state the claims -/

/-- Spec-side description of the header link row: exactly one entry per key
present among linkedin, github, website, email, phone, in that order, with
the labels the spec names; absent keys contribute nothing. -/
def headerLinksSpec (fs : List (String × String)) : List String :=
  ((strLookup fs "linkedin").map
    (fun v => "\\href\x7b" ++ v ++ "\x7d\x7bLinkedIn\x7d")).toList ++
  ((strLookup fs "github").map
    (fun v => "\\href\x7b" ++ v ++ "\x7d\x7bGitHub\x7d")).toList ++
  ((strLookup fs "website").map
    (fun v => "\\href\x7b" ++ v ++ "\x7d\x7bsaiyerniakhil.in\x7d")).toList ++
  ((strLookup fs "email").map
    (fun v => "\\href\x7bmailto://" ++ v ++ "\x7d\x7b" ++ v ++ "\x7d")).toList ++
  ((strLookup fs "phone").map (fun v => v)).toList

/-- A SkillGroup with a string type label and string values, as a JSON object. -/
def mkSkillGroup (t : String) (vs : List String) : JValue :=
  JValue.obj [("type", JValue.str t), ("values", JValue.arr (vs.map JValue.str))]

/-- Spec-side description of one skills bullet: present exactly when both the
label and the values are non-empty. -/
def skillBulletSpec (g : String × List String) : Option String :=
  if g.fst ≠ "" ∧ g.snd ≠ [] then
    some ("\\item \\textbf\x7b" ++ g.fst ++ ":\x7d " ++ joinStrs ", " g.snd)
  else
    none

/-! ## Helper lemmas -/

theorem ok_bind {ε α β : Type} (a : α) (f : α → Except ε β) :
    ((Except.ok a : Except ε α) >>= f) = f a := rfl

theorem error_bind {ε α β : Type} (e : ε) (f : α → Except ε β) :
    ((Except.error e : Except ε α) >>= f) = Except.error e := rfl

theorem except_map_ok {ε α β : Type} (f : α → β) (a : α) :
    (Except.ok a : Except ε α).map f = Except.ok (f a) := rfl

theorem except_map_error {ε α β : Type} (f : α → β) (e : ε) :
    (Except.error e : Except ε α).map f = Except.error e := rfl

theorem except_pure {ε α : Type} (a : α) : (pure a : Except ε α) = Except.ok a := rfl

theorem pureBind {ε α β : Type} (a : α) (f : α → Except ε β) :
    ((pure a : Except ε α) >>= f) = f a := rfl

theorem listIsEmpty_iff {α : Type} (l : List α) : l.isEmpty = true ↔ l = [] := by
  cases l <;> simp [List.isEmpty]

theorem listIsEmpty_map {α β : Type} (f : α → β) (l : List α) :
    (l.map f).isEmpty = l.isEmpty := by
  cases l <;> rfl

theorem option_toList_map {α β : Type} (f : α → β) (o : Option α) :
    (o.map f).toList = o.toList.map f := by
  cases o <;> rfl

theorem option_map_none {α β : Type} (f : α → β) : (none : Option α).map f = none := rfl

theorem option_map_some {α β : Type} (f : α → β) (a : α) :
    (some a).map f = some (f a) := rfl

theorem option_toList_none {α : Type} : (none : Option α).toList = [] := rfl

theorem option_toList_some {α : Type} (a : α) : (some a).toList = [a] := rfl

theorem dictLookup_strFields (fs : List (String × String)) (k : String) :
    dictLookup (strFields fs) k = (strLookup fs k).map JValue.str := by
  induction fs with
  | nil => rfl
  | cons p t ih =>
    obtain ⟨a, b⟩ := p
    by_cases hk : a == k
    · simp [dictLookup, strLookup, strFields, List.find?, hk]
    · simp only [dictLookup, strLookup, strFields, List.find?, List.map] at ih ⊢
      simp only [hk]
      simpa [dictLookup, strLookup, strFields] using ih

theorem strJoin_map_str (sep : String) :
    ∀ ss : List String, strJoin sep (ss.map JValue.str) = Except.ok (joinStrs sep ss)
  | [] => rfl
  | [_] => rfl
  | s :: s2 :: t => by
    have ih := strJoin_map_str sep (s2 :: t)
    simp only [List.map] at ih ⊢
    rw [show strJoin sep (JValue.str s :: JValue.str s2 :: t.map JValue.str) =
          (strJoin sep (JValue.str s2 :: t.map JValue.str)).map (fun r => s ++ sep ++ r)
        from rfl,
        ih]
    rfl

theorem createHeader_take4 (d : List (String × JValue)) (l : List String)
    (h : createHeader d = Except.ok l) : l.take 4 = headerNameLines := by
  simp only [createHeader] at h
  rcases hcl : createHeaderLinks (dictGet d "socialLinks" (JValue.obj [])) with e | links
  · rw [hcl, error_bind] at h
    exact absurd h (by simp)
  · rw [hcl, ok_bind] at h
    by_cases he : links.isEmpty = true
    · rw [if_pos he, except_pure] at h
      simp only [Except.ok.injEq] at h
      subst h
      rfl
    · rw [if_neg he] at h
      rcases hj : strJoin "\n\\text\x7b\\textbar\x7d\n" links with e2 | j
      · rw [hj, error_bind] at h
        exact absurd h (by simp)
      · rw [hj, ok_bind, except_pure] at h
        simp only [Except.ok.injEq] at h
        subst h
        rfl

/-! ## Claim theorems -/

/-- C1 (code bug evidence): when fetch fails it returns the empty mapping, but
the destructuring branch of Resume init then raises KeyError on the first
of the four keys instead of substituting empty defaults, so the
generate-resume-from-api endpoint answers 500, not 200 with a PDF. -/
theorem c1_fetch_failure_raises :
    fetch (GetResult.raised RequestsExc.timeout) = JValue.obj [] ∧
    fromFetch (JValue.obj []) = Except.error (PyErr.keyError "personalInfo") ∧
    generate_resume_from_api
        ⟨GetResult.raised RequestsExc.timeout, none, none, false, none, "t"⟩ none =
      ⟨500, RespBody.jsonBody
        [("error", JValue.str (pyErrMsg (PyErr.keyError "personalInfo")))]⟩ :=
  ⟨rfl, rfl, rfl⟩

/-- C2 (counterexample): a 300 response carrying a valid JSON body has a
non-2xx status, yet fetch returns the parsed body rather than the empty
mapping, because raise_for_status only raises for 400 to 599. -/
theorem c2_counterexample :
    fetch (GetResult.resp ⟨300, some (JValue.obj [("choices", JValue.arr [])])⟩) =
      JValue.obj [("choices", JValue.arr [])] ∧
    JValue.obj [("choices", JValue.arr [])] ≠ JValue.obj [] ∧
    ¬(200 ≤ 300 ∧ 300 ≤ 299) := by
  refine ⟨rfl, ?_, by decide⟩
  intro h
  have ht := congrArg truthy h
  simp [truthy] at ht

/-- C2 (amended): fetch never raises; when the get call itself raises it
returns the empty mapping, and for a response it returns the empty mapping
exactly when the status is in 400 to 599 or the body is unparsable,
otherwise the parsed body. -/
theorem c2_fetch_never_raises (g : GetResult) :
    (∀ e, g = GetResult.raised e → fetch g = JValue.obj []) ∧
    (∀ r, g = GetResult.resp r →
      ((400 ≤ r.status ∧ r.status < 600) → fetch g = JValue.obj []) ∧
      (¬(400 ≤ r.status ∧ r.status < 600) →
        fetch g = match r.parsed with
          | some v => v
          | none => JValue.obj [])) := by
  constructor
  · rintro e rfl
    cases e <;> rfl
  · rintro r rfl
    constructor
    · intro hs
      simp [fetch, fetchTry, raiseForStatus, hs, error_bind]
    · intro hs
      rcases hp : r.parsed with _ | v <;>
        simp [fetch, fetchTry, raiseForStatus, responseJson, hs, hp, ok_bind, error_bind]

theorem c2_fetch_never_raises_witness :
    fetch (GetResult.resp ⟨200, some (JValue.obj [("k", JValue.str "v")])⟩) =
      JValue.obj [("k", JValue.str "v")] ∧
    fetch (GetResult.raised RequestsExc.connectionError) = JValue.obj [] :=
  ⟨((c2_fetch_never_raises _).2 _ rfl).2 (by decide),
   (c2_fetch_never_raises _).1 _ rfl⟩

/-- C5: supplying workEx as a single mapping produces a work-experience
section identical to supplying it as the one-element sequence holding that
mapping, for every mapping and any surrounding data. -/
theorem c5_workex_normalization (w rest : List (String × JValue)) :
    createWorkExSection (("workEx", JValue.obj w) :: rest) =
    createWorkExSection (("workEx", JValue.arr [JValue.obj w]) :: rest) := rfl

/-- C9: the education section and the displayed header name (the first four
header lines) are fixed literals, identical across all inputs. -/
theorem c9_fixed_content (d1 d2 : List (String × JValue)) :
    createEducation d1 = createEducation d2 ∧
    (∀ l1 l2, createHeader d1 = Except.ok l1 → createHeader d2 = Except.ok l2 →
      l1.take 4 = l2.take 4) :=
  ⟨rfl, fun l1 l2 h1 h2 =>
    (createHeader_take4 d1 l1 h1).trans (createHeader_take4 d2 l2 h2).symm⟩

theorem generateResumeBuild_status (w : ExternalWorld) (data : List (String × JValue))
    (resp : HttpResp) (h : generateResumeBuild w data = Except.ok resp) :
    resp.status = 200 ∨ resp.status = 500 := by
  simp only [generateResumeBuild] at h
  rcases hr : resumeInit (some (dictRemove data "uploadToGcs")) (fetch w.combinedFetch)
    with e | r
  · rw [hr, error_bind] at h
    exact absurd h (by simp)
  · rw [hr, ok_bind] at h
    rcases hc : r.create "resume" w.latexFailure with e | p
    · rw [hc, error_bind] at h
      exact absurd h (by simp)
    · obtain ⟨r1, fn⟩ := p
      rw [hc, ok_bind] at h
      dsimp only at h
      by_cases hf : truthy (dictGet data "uploadToGcs" (JValue.bool false)) = true
      · rw [if_pos hf] at h
        rcases hu : upload_to_gcs w fn none with e | o
        · rw [hu, error_bind] at h
          exact absurd h (by simp)
        · rw [hu, ok_bind] at h
          rcases o with _ | url
          · simp only [except_pure, Except.ok.injEq] at h
            subst h
            right
            rfl
          · simp only [except_pure, Except.ok.injEq] at h
            subst h
            left
            rfl
      · rw [if_neg hf, except_pure] at h
        simp only [Except.ok.injEq] at h
        subst h
        left
        rfl

/-- C3: the POST validation gate: absent or empty body gives the first 400
error, a non-empty body with neither workEx nor socialLinks gives the
second, and with at least one of the keys present the response is never a
400, so a build is only reached past the two checks. -/
theorem c3_validation_gate (w : ExternalWorld) :
    generate_resume w none =
      ⟨400, .jsonBody [("error", JValue.str "No JSON data provided")]⟩ ∧
    generate_resume w (some []) =
      ⟨400, .jsonBody [("error", JValue.str "No JSON data provided")]⟩ ∧
    (∀ data : List (String × JValue), data ≠ [] →
      dictContains data "workEx" = false → dictContains data "socialLinks" = false →
      generate_resume w (some data) =
        ⟨400, .jsonBody [("error", JValue.str "Either workEx or socialLinks must be provided")]⟩) ∧
    (∀ data : List (String × JValue),
      (dictContains data "workEx" = true ∨ dictContains data "socialLinks" = true) →
      (generate_resume w (some data)).status ≠ 400) := by
  refine ⟨rfl, rfl, ?_, ?_⟩
  · intro data hne hw hs
    have he : data.isEmpty = false := by
      cases data
      · exact absurd rfl hne
      · rfl
    simp [generate_resume, generateResumeInner, he, hw, hs]
  · intro data hkey
    have hne : data.isEmpty = false := by
      rcases hkey with hk | hk <;>
      · cases data
        · simp [dictContains, dictLookup] at hk
        · rfl
    have hcond : (!(dictContains data "workEx") && !(dictContains data "socialLinks")) = false := by
      rcases hkey with hk | hk <;> simp [hk]
    simp only [generate_resume, generateResumeInner, hne, hcond, Bool.false_eq_true,
      if_false]
    rcases hb : generateResumeBuild w data with e | resp
    · simp [hb]
    · have hst := generateResumeBuild_status w data resp hb
      simp only [hb]
      omega

theorem c3_validation_gate_witness :
    generate_resume ⟨GetResult.raised RequestsExc.timeout, none, none, false, none, "t"⟩
        (some [("foo", JValue.num 1)]) =
      ⟨400, .jsonBody [("error", JValue.str "Either workEx or socialLinks must be provided")]⟩ ∧
    (generate_resume ⟨GetResult.raised RequestsExc.timeout, none, none, false, none, "t"⟩
        (some [("socialLinks", JValue.obj [("email", JValue.str "a@b.com")])])).status ≠ 400 :=
  ⟨(c3_validation_gate _).2.2.1 _ (by simp) rfl rfl,
   (c3_validation_gate _).2.2.2 _ (Or.inr rfl)⟩

theorem create_ok_spec (r : Resume) (fn : String) (lf : Option String) (r1 : Resume)
    (out : String) (h : r.create fn lf = Except.ok (r1, out)) :
    lf = none ∧ out = fn ++ ".pdf" ∧
    ∃ hd w s, createHeader r.data = Except.ok hd ∧
      (if dictContains r.data "workEx" && truthy (dictGet r.data "workEx" JValue.null)
        then createWorkExSection r.data = Except.ok w else w = ([] : List String)) ∧
      (if dictContains r.data "skills" && truthy (dictGet r.data "skills" JValue.null)
        then createSkills r.data = Except.ok s else s = ([] : List String)) ∧
      r1 = Resume.mk (r.docBody ++ hd ++ w ++ s ++ educationLines) r.data := by
  simp only [Resume.create] at h
  rcases hH : createHeader r.data with e | hd
  · rw [hH, error_bind] at h
    exact absurd h (by simp)
  rw [hH, ok_bind] at h
  by_cases hw : (dictContains r.data "workEx" && truthy (dictGet r.data "workEx" JValue.null)) = true
  case pos =>
    rw [if_pos hw] at h
    rcases hW : createWorkExSection r.data with e | wl
    · rw [hW, error_bind] at h
      exact absurd h (by simp)
    rw [hW, ok_bind] at h
    by_cases hs : (dictContains r.data "skills" && truthy (dictGet r.data "skills" JValue.null)) = true
    case pos =>
      rw [if_pos hs] at h
      rcases hS : createSkills r.data with e | sl
      · rw [hS, error_bind] at h
        exact absurd h (by simp)
      rw [hS, ok_bind] at h
      cases lf with
      | some msg => exact absurd h (by simp)
      | none =>
        simp only [Except.ok.injEq, Prod.mk.injEq] at h
        exact ⟨rfl, h.2.symm, hd, wl, sl, rfl, by rw [if_pos hw],
          by rw [if_pos hs], h.1.symm⟩
    case neg =>
      rw [if_neg hs, pureBind] at h
      cases lf with
      | some msg => exact absurd h (by simp)
      | none =>
        simp only [Except.ok.injEq, Prod.mk.injEq] at h
        exact ⟨rfl, h.2.symm, hd, wl, [], rfl, by rw [if_pos hw],
          by rw [if_neg hs], h.1.symm⟩
  case neg =>
    rw [if_neg hw, pureBind] at h
    by_cases hs : (dictContains r.data "skills" && truthy (dictGet r.data "skills" JValue.null)) = true
    case pos =>
      rw [if_pos hs] at h
      rcases hS : createSkills r.data with e | sl
      · rw [hS, error_bind] at h
        exact absurd h (by simp)
      rw [hS, ok_bind] at h
      cases lf with
      | some msg => exact absurd h (by simp)
      | none =>
        simp only [Except.ok.injEq, Prod.mk.injEq] at h
        exact ⟨rfl, h.2.symm, hd, [], sl, rfl, by rw [if_neg hw],
          by rw [if_pos hs], h.1.symm⟩
    case neg =>
      rw [if_neg hs, pureBind] at h
      cases lf with
      | some msg => exact absurd h (by simp)
      | none =>
        simp only [Except.ok.injEq, Prod.mk.injEq] at h
        exact ⟨rfl, h.2.symm, hd, [], [], rfl, by rw [if_neg hw],
          by rw [if_neg hs], h.1.symm⟩

/-- C4: a successful create returns the filename base with the pdf suffix
appended, and appends to the document exactly the header, the work
experience section precisely when workEx is present and truthy, the skills
section precisely when skills is present and truthy, and the education
section, in that order, leaving the data unchanged. -/
theorem c4_create_spec (r : Resume) (fn : String) (lf : Option String) (r1 : Resume)
    (out : String) (h : r.create fn lf = Except.ok (r1, out)) :
    out = fn ++ ".pdf" ∧
    ∃ hd w s, createHeader r.data = Except.ok hd ∧
      (if dictContains r.data "workEx" && truthy (dictGet r.data "workEx" JValue.null)
        then createWorkExSection r.data = Except.ok w else w = ([] : List String)) ∧
      (if dictContains r.data "skills" && truthy (dictGet r.data "skills" JValue.null)
        then createSkills r.data = Except.ok s else s = ([] : List String)) ∧
      r1.docBody = r.docBody ++ hd ++ w ++ s ++ educationLines ∧
      r1.data = r.data := by
  obtain ⟨-, hout, hd, w, s, hH, hw, hs, hr1⟩ := create_ok_spec r fn lf r1 out h
  subst hr1
  exact ⟨hout, hd, w, s, hH, hw, hs, rfl, rfl⟩

theorem c4_create_spec_witness :
    (Resume.mk [] []).create "resume" none =
      Except.ok (Resume.mk (headerNameLines ++ educationLines) [], "resume.pdf") ∧
    ("resume.pdf" = "resume" ++ ".pdf" ∧
     ∃ hd w s, createHeader ([] : List (String × JValue)) = Except.ok hd ∧
      (if dictContains ([] : List (String × JValue)) "workEx" &&
          truthy (dictGet [] "workEx" JValue.null)
        then createWorkExSection ([] : List (String × JValue)) = Except.ok w
        else w = ([] : List String)) ∧
      (if dictContains ([] : List (String × JValue)) "skills" &&
          truthy (dictGet [] "skills" JValue.null)
        then createSkills ([] : List (String × JValue)) = Except.ok s
        else s = ([] : List String)) ∧
      headerNameLines ++ educationLines = [] ++ hd ++ w ++ s ++ educationLines ∧
      ([] : List (String × JValue)) = []) :=
  ⟨rfl, c4_create_spec (Resume.mk [] []) "resume" none
    (Resume.mk (headerNameLines ++ educationLines) []) "resume.pdf" rfl⟩

theorem appendLink_strObj (fs : List (String × String)) (links : List JValue)
    (key : String) (render : String → String) :
    appendLink (strObj fs) links key render =
      Except.ok (links ++ ((strLookup fs key).map (fun v => JValue.str (render v))).toList) := by
  rcases hk : strLookup fs key with _ | v
  · simp [appendLink, pyIn, strObj, dictContains, dictLookup_strFields, hk, ok_bind,
      except_pure]
  · simp [appendLink, pyIn, pySubscript, strObj, dictContains, dictLookup_strFields, hk,
      ok_bind, except_pure, pyStr]

theorem createHeaderLinks_strObj (fs : List (String × String)) :
    createHeaderLinks (strObj fs) = Except.ok ((headerLinksSpec fs).map JValue.str) := by
  simp only [createHeaderLinks, appendLink_strObj, ok_bind]
  rcases hp : strLookup fs "phone" with _ | v
  · simp [pyIn, strObj, dictContains, dictLookup_strFields, hp, headerLinksSpec,
      option_toList_map, option_map_none, option_toList_none, ok_bind, except_pure,
      List.append_assoc, List.map_append, List.map_map, Function.comp_def]
  · simp [pyIn, pySubscript, strObj, dictContains, dictLookup_strFields, hp, headerLinksSpec,
      option_toList_map, option_map_some, option_toList_some, ok_bind, except_pure,
      List.append_assoc, List.map_append, List.map_map, Function.comp_def, pyStr]

/-- C6: the header emits exactly one link entry per key present among
linkedin, github, website, email, phone, in that order and with the labels
the spec names; absent keys contribute nothing, and with zero keys present
the centered link row is omitted entirely. -/
theorem c6_header_links (d : List (String × JValue)) (fs : List (String × String))
    (h : dictGet d "socialLinks" (JValue.obj []) = strObj fs) :
    createHeaderLinks (strObj fs) = Except.ok ((headerLinksSpec fs).map JValue.str) ∧
    createHeader d = Except.ok (headerNameLines ++
      (if (headerLinksSpec fs).isEmpty then []
       else ["\\begin\x7bcenter\x7d",
             joinStrs "\n\\text\x7b\\textbar\x7d\n" (headerLinksSpec fs),
             "\\end\x7bcenter\x7d"])) := by
  refine ⟨createHeaderLinks_strObj fs, ?_⟩
  simp only [createHeader, h, createHeaderLinks_strObj, ok_bind, listIsEmpty_map]
  by_cases he : (headerLinksSpec fs).isEmpty = true
  · rw [if_pos he, if_pos he, except_pure]
    rw [listIsEmpty_iff] at he
    simp [he]
  · rw [if_neg he, if_neg he, strJoin_map_str, ok_bind, except_pure]

theorem c6_header_links_witness :
    createHeaderLinks (strObj [("github", "https://github.com/x")]) =
      Except.ok ((headerLinksSpec [("github", "https://github.com/x")]).map JValue.str) ∧
    createHeader [("socialLinks", strObj [("github", "https://github.com/x")])] =
      Except.ok (headerNameLines ++
        (if (headerLinksSpec [("github", "https://github.com/x")]).isEmpty then []
         else ["\\begin\x7bcenter\x7d",
               joinStrs "\n\\text\x7b\\textbar\x7d\n"
                 (headerLinksSpec [("github", "https://github.com/x")]),
               "\\end\x7bcenter\x7d"])) :=
  c6_header_links _ _ rfl

theorem renderSkill_spec (t : String) (vs : List String) :
    renderSkill (mkSkillGroup t vs) = Except.ok ((skillBulletSpec (t, vs)).toList) := by
  by_cases ht : t = ""
  · subst ht
    rfl
  · have htE : t.isEmpty = false := by
      cases hq : t.isEmpty
      · rfl
      · exact absurd ((String.isEmpty_iff t).mp hq) ht
    by_cases hv : vs = []
    · subst hv
      simp [renderSkill, mkSkillGroup, pyGet, dictGet, dictLookup, List.find?, truthy,
        skillBulletSpec, htE, ok_bind, except_pure]
    · have hvE : (vs.map JValue.str).isEmpty = false := by
        cases vs
        · exact absurd rfl hv
        · rfl
      simp [renderSkill, mkSkillGroup, pyGet, dictGet, dictLookup, List.find?, truthy,
        skillBulletSpec, ht, hv, htE, hvE, pyIter, strJoin_map_str, pyStr, ok_bind,
        except_pure]

theorem renderSkills_spec (groups : List (String × List String)) :
    renderSkills (groups.map (fun g => mkSkillGroup g.fst g.snd)) =
      Except.ok (groups.filterMap skillBulletSpec) := by
  induction groups with
  | nil => rfl
  | cons g t ih =>
    obtain ⟨gt, gv⟩ := g
    simp only [List.map, renderSkills, renderSkill_spec, ok_bind, ih, except_pure,
      List.filterMap_cons]
    rcases hb : skillBulletSpec (gt, gv) with _ | b <;> simp [hb]

/-- C7: a skills bullet is emitted for a group exactly when both its type
and its values are non-empty, failing groups are silently skipped, and the
section heading and bullet-list wrapper are still emitted whenever the
top-level skills value is non-empty even if every group is filtered out. -/
theorem c7_skills_filtering (d : List (String × JValue)) (groups : List (String × List String))
    (h : dictGet d "skills" (JValue.arr []) =
      JValue.arr (groups.map (fun g => mkSkillGroup g.fst g.snd)))
    (hne : groups ≠ []) :
    createSkills d = Except.ok (skillsHeaderLines ++
      ["\\begin\x7bitemize\x7d[leftmargin=*]",
       "\\setlength\x7b\\itemsep\x7d\x7b0.02em\x7d"]
      ++ groups.filterMap skillBulletSpec ++ ["\\end\x7bitemize\x7d"]) ∧
    (∀ t vs, renderSkill (mkSkillGroup t vs) =
      Except.ok ((skillBulletSpec (t, vs)).toList)) := by
  refine ⟨?_, fun t vs => renderSkill_spec t vs⟩
  have htr : truthy (JValue.arr (groups.map (fun g => mkSkillGroup g.fst g.snd))) = true := by
    cases groups
    · exact absurd rfl hne
    · rfl
  simp only [createSkills, h, htr, if_true, pyIter, ok_bind, renderSkills_spec, except_pure]
  try simp [List.append_assoc]

theorem c7_skills_filtering_witness :
    createSkills [("skills",
        JValue.arr [mkSkillGroup "" ["x"], mkSkillGroup "Languages" ["Python", "Go"]])] =
      Except.ok (skillsHeaderLines ++
        ["\\begin\x7bitemize\x7d[leftmargin=*]",
         "\\setlength\x7b\\itemsep\x7d\x7b0.02em\x7d"]
        ++ [("", ["x"]), ("Languages", ["Python", "Go"])].filterMap skillBulletSpec
        ++ ["\\end\x7bitemize\x7d"]) ∧
    (∀ t vs, renderSkill (mkSkillGroup t vs) =
      Except.ok ((skillBulletSpec (t, vs)).toList)) :=
  c7_skills_filtering _ [("", ["x"]), ("Languages", ["Python", "Go"])] rfl (by simp)

theorem upload_skipped (w : ExternalWorld) (h : storageClient w = false)
    (fp : String) (dn : Option String) : upload_to_gcs w fp dn = Except.ok none := by
  have hc : (!(bucketTruthy w) || !(storageClient w)) = true := by
    rw [h]
    simp
  simp [upload_to_gcs, hc]

/-- C8: with the bucket unset or the client uninitialized, upload_to_gcs
returns the skipped outcome without touching the backend, and a POST with
a truthy uploadToGcs flag then answers 500 with the bucket-not-configured
body; with a configured bucket and working client the call returns the gs
locator, and a backend failure re-raises to the caller. -/
theorem c8_upload_gating (w : ExternalWorld) (fp : String) (dn : Option String)
    (data : List (String × JValue)) (r : Resume) (p : Resume × String) (bname : String) :
    (storageClient w = false → upload_to_gcs w fp dn = Except.ok none) ∧
    (storageClient w = false →
      truthy (dictGet data "uploadToGcs" (JValue.bool false)) = true →
      (dictContains data "workEx" = true ∨ dictContains data "socialLinks" = true) →
      resumeInit (some (dictRemove data "uploadToGcs")) (fetch w.combinedFetch) =
        Except.ok r →
      r.create "resume" w.latexFailure = Except.ok p →
      generate_resume w (some data) =
        ⟨500, .jsonBody [("success", JValue.bool false),
          ("message",
           JValue.str "Resume generated but GCS upload failed (bucket not configured)")]⟩) ∧
    (w.gcsBucketName = some bname → bname ≠ "" → w.gcsClientInitOk = true →
      w.gcsUploadFailure = none →
      upload_to_gcs w fp dn = Except.ok (some ("gs://" ++ bname ++ "/" ++
        (match dn with
         | none => "resumes/resume_" ++ w.timestamp ++ ".pdf"
         | some n => if n.isEmpty then "resumes/resume_" ++ w.timestamp ++ ".pdf" else n)))) ∧
    (∀ m, storageClient w = true → w.gcsUploadFailure = some m →
      upload_to_gcs w fp dn = Except.error (PyErr.other m)) := by
  refine ⟨fun h => upload_skipped w h fp dn, ?_, ?_, ?_⟩
  · intro hsc hflag hkey hinit hcreate
    have hne : data.isEmpty = false := by
      rcases hkey with hk | hk <;>
      · cases data
        · simp [dictContains, dictLookup] at hk
        · rfl
    have hcond : (!(dictContains data "workEx") && !(dictContains data "socialLinks")) = false := by
      rcases hkey with hk | hk <;> simp [hk]
    simp only [generate_resume, generateResumeInner, hne, hcond, Bool.false_eq_true, if_false]
    simp only [generateResumeBuild]
    rw [hinit, ok_bind]
    obtain ⟨r1, fn⟩ := p
    rw [hcreate, ok_bind]
    dsimp only
    rw [if_pos hflag, upload_skipped w hsc fn none, ok_bind]
    rfl
  · intro hb hbne hinit hfail
    have hbt : bucketTruthy w = true := by
      have hbe : bname.isEmpty = false := by
        cases hq : bname.isEmpty
        · rfl
        · exact absurd ((String.isEmpty_iff bname).mp hq) hbne
      simp [bucketTruthy, hb, hbe]
    have hsc : storageClient w = true := by
      simp [storageClient, hbt, hinit]
    simp [upload_to_gcs, hbt, hsc, hfail, hb]
  · intro m hsc hfail
    have hbt : bucketTruthy w = true := by
      have hsc2 := hsc
      simp [storageClient] at hsc2
      exact hsc2.1
    simp [upload_to_gcs, hbt, hsc, hfail]

theorem c8_upload_gating_witness :
    upload_to_gcs ⟨GetResult.raised RequestsExc.timeout, none, none, false, none, "ts"⟩
        "p" none = Except.ok none ∧
    generate_resume ⟨GetResult.raised RequestsExc.timeout, none, none, false, none, "ts"⟩
        (some [("socialLinks", JValue.obj []), ("uploadToGcs", JValue.bool true)]) =
      ⟨500, .jsonBody [("success", JValue.bool false),
        ("message",
         JValue.str "Resume generated but GCS upload failed (bucket not configured)")]⟩ ∧
    upload_to_gcs ⟨GetResult.raised RequestsExc.timeout, none, some "bkt", true, none, "ts"⟩
        "p" (some "resume.pdf") = Except.ok (some ("gs://" ++ "bkt" ++ "/" ++ "resume.pdf")) ∧
    upload_to_gcs
        ⟨GetResult.raised RequestsExc.timeout, none, some "bkt", true, some "boom", "ts"⟩
        "p" (some "resume.pdf") = Except.error (PyErr.other "boom") := by
  refine ⟨?_, ?_, ?_, ?_⟩
  · exact (c8_upload_gating _ "p" none [] (Resume.mk [] []) (Resume.mk [] [], "") "").1 rfl
  · exact (c8_upload_gating _ "p" none
      [("socialLinks", JValue.obj []), ("uploadToGcs", JValue.bool true)]
      (Resume.mk [] [("socialLinks", JValue.obj [])])
      (Resume.mk (headerNameLines ++ educationLines) [("socialLinks", JValue.obj [])],
        "resume.pdf") "").2.1 rfl rfl (Or.inr rfl) rfl rfl
  · exact (c8_upload_gating _ "p" (some "resume.pdf") [] (Resume.mk [] [])
      (Resume.mk [] [], "") "bkt").2.2.1 rfl (by decide) rfl rfl
  · exact (c8_upload_gating _ "p" (some "resume.pdf") [] (Resume.mk [] [])
      (Resume.mk [] [], "") "bkt").2.2.2 "boom" rfl rfl

/-- C10: create never resets the document: a second create on the object
produced by a first one appends the same section lines a second time, so
the document then holds every emitted section twice. -/
theorem c10_create_not_idempotent (r : Resume) (fn1 fn2 : String) (lf1 lf2 : Option String)
    (r1 r2 : Resume) (f1 f2 : String)
    (h1 : r.create fn1 lf1 = Except.ok (r1, f1))
    (h2 : r1.create fn2 lf2 = Except.ok (r2, f2)) :
    ∃ ls, ls ≠ [] ∧ r1.docBody = r.docBody ++ ls ∧
      r2.docBody = r.docBody ++ ls ++ ls ∧ r2.data = r.data := by
  obtain ⟨-, -, hd, w, s, hH, hw, hs, hr1⟩ := create_ok_spec r fn1 lf1 r1 f1 h1
  obtain ⟨-, -, hd2, w2, s2, hH2, hw2, hs2, hr2⟩ := create_ok_spec r1 fn2 lf2 r2 f2 h2
  subst hr1
  dsimp only at hH2 hw2 hs2 hr2
  have hdEq : hd2 = hd := by
    have := hH.symm.trans hH2
    simp only [Except.ok.injEq] at this
    exact this.symm
  have wEq : w2 = w := by
    by_cases hc : (dictContains r.data "workEx" && truthy (dictGet r.data "workEx" JValue.null)) = true
    · rw [if_pos hc] at hw hw2
      have := hw.symm.trans hw2
      simp only [Except.ok.injEq] at this
      exact this.symm
    · rw [if_neg hc] at hw hw2
      rw [hw, hw2]
  have sEq : s2 = s := by
    by_cases hc : (dictContains r.data "skills" && truthy (dictGet r.data "skills" JValue.null)) = true
    · rw [if_pos hc] at hs hs2
      have := hs.symm.trans hs2
      simp only [Except.ok.injEq] at this
      exact this.symm
    · rw [if_neg hc] at hs hs2
      rw [hs, hs2]
  subst hr2
  subst hdEq
  subst wEq
  subst sEq
  refine ⟨hd2 ++ w2 ++ s2 ++ educationLines, ?_, ?_, ?_, rfl⟩
  · intro hls
    have hedu : educationLines = [] := (List.append_eq_nil.mp hls).2
    exact absurd hedu (by decide)
  · simp [List.append_assoc]
  · simp [List.append_assoc]

theorem c10_create_not_idempotent_witness :
    ∃ ls : List String, ls ≠ [] ∧
      headerNameLines ++ educationLines = [] ++ ls ∧
      (headerNameLines ++ educationLines) ++ (headerNameLines ++ educationLines) =
        [] ++ ls ++ ls ∧
      ([] : List (String × JValue)) = [] :=
  c10_create_not_idempotent (Resume.mk [] []) "resume" "resume" none none
    (Resume.mk (headerNameLines ++ educationLines) [])
    (Resume.mk ((headerNameLines ++ educationLines) ++ (headerNameLines ++ educationLines)) [])
    "resume.pdf" "resume.pdf" rfl rfl

theorem c9_fixed_content_witness :
    createEducation ([] : List (String × JValue)) =
      createEducation [("socialLinks", strObj [("github", "https://github.com/x")])] ∧
    (headerNameLines).take 4 =
      (headerNameLines ++ ["\\begin\x7bcenter\x7d",
        "\\href\x7bhttps://github.com/x\x7d\x7bGitHub\x7d",
        "\\end\x7bcenter\x7d"]).take 4 :=
  ⟨(c9_fixed_content [] [("socialLinks", strObj [("github", "https://github.com/x")])]).1,
   (c9_fixed_content [] [("socialLinks", strObj [("github", "https://github.com/x")])]).2
     _ _ rfl rfl⟩

end ResumeCI
